import Mathlib

/-!
Shallow embedding of the PVC (Parallel Virtual Cluster) control-plane daemons:
the early node supervisor (`NodeInstance.py`), the per-VM lifecycle controllers
of the node daemon (`node-daemon/pvcnoded/VMInstance.py`) and of the older
virtualization daemon (`virtualization-daemon/pvcvd/VMInstance.py`), the
router daemon's per-network controller
(`router-daemon/pvcrd/VXNetworkInstance.py`), and the shared process runner
(`daemon-common/daemon_lib/common.py`).

Store writes are modelled as explicit lists of key/value pairs; external
observations (coordination-store reads, libvirt lookups, command exit codes)
are passed in as explicit inputs, so every function here is a pure,
executable translation of the corresponding Python function.
-/

/-- Keys of the hierarchical coordination store that the modelled code writes.
Each constructor corresponds to one path scheme:
`domState u` = `/domains/<u>/state`, `domHypervisor u` = `/domains/<u>/hypervisor`,
`domFailedReason u` = `/domains/<u>/failedreason`,
`nodeRunningDomains n` = `/nodes/<n>/runningdomains`, `cmdDomains` = `/cmd/domains`. -/
inductive ZkKey where
  | domState (u : String)
  | domHypervisor (u : String)
  | domFailedReason (u : String)
  | nodeRunningDomains (n : String)
  | cmdDomains
  deriving DecidableEq, Repr

/-- One write into the coordination store (`zkhandler.writedata` / `zk.set`). -/
structure ZkWrite where
  key : ZkKey
  value : String
  deriving DecidableEq, Repr

/-!
## daemon-common/daemon_lib/common.py
-/

/-- Model of a `subprocess.Popen` handle. `exitCode` is the status the spawned
program will eventually exit with; `waited` records whether the parent has
reaped the child (`wait()`/`poll()`/`communicate()`). A freshly spawned handle
has `waited = false`. -/
structure Popen where
  exitCode : Int
  waited : Bool
  deriving DecidableEq, Repr

/-- `subprocess.Popen(command, ...)`: spawn without waiting. -/
def Popen.spawn (exitCode : Int) : Popen :=
  { exitCode := exitCode, waited := false }

/-- The `returncode` attribute of a `Popen` object: `None` until the child has
been reaped by a wait/poll, the exit status afterwards. -/
def Popen.returncode (p : Popen) : Option Int :=
  if p.waited then some p.exitCode else none

/-- `common.run_os_command(command_string, background, environment)`.
`exitCode` is the status the external program exits with.  The background
branch spawns a thread and returns the literal `0`; the foreground branch
builds `command_output = subprocess.Popen(...)` and immediately returns
`command_output.returncode` (no `wait()` in between). -/
def run_os_command (background : Bool) (exitCode : Int) : Option Int :=
  if background then
    some 0
  else
    let command_output := Popen.spawn exitCode
    command_output.returncode

/-!
## NodeInstance.py (early node supervisor)
-/

/-- One peer node as consulted by `NodeInstance.flush`: its name
(`node.getname()`) and its free memory (`node.getfreemem()`). -/
structure PeerNode where
  name : String
  memfree : ℕ
  deriving DecidableEq, Repr

/-- The target-selection loop inside `NodeInstance.flush`.  Python:
`least_mem = (2^64)/8` (note `^` is XOR in Python, so the initial bound is
`(2 xor 64)/8 = 66/8`), `least_host = ""`, then for each node,
`if node_freemem < least_mem: least_mem = node_freemem; least_host = node.getname()`.
Returns the final `(least_host, least_mem)`. -/
def flushSelectTarget (node_list : List PeerNode) : String × ℚ :=
  node_list.foldl
    (fun acc node =>
      if (node.memfree : ℚ) < acc.2 then ((node.name : String), (node.memfree : ℚ))
      else acc)
    ("", ((Nat.xor 2 64 : ℕ) : ℚ) / 8)

/-- `NodeInstance.flush`: for each domain in `self.domainlist`, run the
selection loop over `node_list` and then
`zk.set('/domains/<d>/state', 'flush')`,
`zk.set('/domains/<d>/hypervisor', least_host)`. -/
def NodeInstance.flush (domainlist : List String) (node_list : List PeerNode) :
    List ZkWrite :=
  domainlist.foldr
    (fun domain acc =>
      let least_host := (flushSelectTarget node_list).1
      ZkWrite.mk (ZkKey.domState domain) "flush" ::
        ZkWrite.mk (ZkKey.domHypervisor domain) least_host :: acc)
    []

/-!
## Local running-domain list (both VMInstance variants)
-/

/-- The node-local controller context shared by both `VMInstance`
implementations: the node's name and its in-memory `domain_list`. -/
structure NodeCtx where
  name : String
  domain_list : List String
  deriving DecidableEq, Repr

/-- `VMInstance.addDomainToList`: if the uuid is not yet in the node's
`domain_list`, append it and push
`/nodes/<name>/runningdomains := ' '.join(domain_list)`; otherwise do
nothing. -/
def addDomainToList (ctx : NodeCtx) (domuuid : String) : NodeCtx × List ZkWrite :=
  if domuuid ∈ ctx.domain_list then
    (ctx, [])
  else
    let l := ctx.domain_list ++ [domuuid]
    ({ ctx with domain_list := l },
     [ZkWrite.mk (ZkKey.nodeRunningDomains ctx.name) (String.intercalate " " l)])

/-- `VMInstance.removeDomainFromList`: if the uuid is in the node's
`domain_list`, remove it and push
`/nodes/<name>/runningdomains := ' '.join(domain_list)`; otherwise do
nothing. -/
def removeDomainFromList (ctx : NodeCtx) (domuuid : String) : NodeCtx × List ZkWrite :=
  if domuuid ∈ ctx.domain_list then
    let l := ctx.domain_list.erase domuuid
    ({ ctx with domain_list := l },
     [ZkWrite.mk (ZkKey.nodeRunningDomains ctx.name) (String.intercalate " " l)])
  else
    (ctx, [])

/-!
## node-daemon/pvcnoded/VMInstance.py — VM lifecycle
-/

/-- Libvirt operations the lifecycle functions issue against the local
hypervisor driver. -/
inductive LibvirtOp where
  | destroy
  deriving DecidableEq, Repr

/-- `VMInstance.terminate_vm` (pvcnoded): destroy the local domain if the
handle exists (`AttributeError` is swallowed when it is `None`), remove it
from the local running list, set `self.dom = None` and stop the log watcher.
No `/domains/<u>/state` write happens anywhere in the function. -/
def terminate_vm (u : String) (dom_present : Bool) (ctx : NodeCtx) :
    NodeCtx × List ZkWrite × List LibvirtOp :=
  let ops := if dom_present then [LibvirtOp.destroy] else []
  let (ctx', w) := removeDomainFromList ctx u
  (ctx', w, ops)

/-- `VMInstance.stop_vm` (pvcnoded): destroy the local domain if the handle
exists, remove it from the running list, and — when not inside a restart —
write `/domains/<u>/state := 'stop'`. -/
def stop_vm (u : String) (dom_present inrestart : Bool) (ctx : NodeCtx) :
    NodeCtx × List ZkWrite × List LibvirtOp :=
  let ops := if dom_present then [LibvirtOp.destroy] else []
  let (ctx', w) := removeDomainFromList ctx u
  let w' := if inrestart = false then w ++ [ZkWrite.mk (ZkKey.domState u) "stop"] else w
  (ctx', w', ops)

/-- What the shutdown wait loop observes at a given tick: the value read back
from `/domains/<u>/state`, and whether `self.dom.state()[0]` reports
`VIR_DOMAIN_RUNNING` (a lookup exception is modelled as not running, exactly
as the source's `except: lvdomstate = None`). -/
structure ShutObs where
  state : String
  running : Bool
  deriving DecidableEq, Repr

/-- How `VMInstance.shutdown_vm` (pvcnoded) left its wait loop. -/
inductive ShutdownOutcome where
  | aborted
  | stopped
  | timedOut
  | fuelOut
  deriving DecidableEq, Repr

/-- Result of `VMInstance.shutdown_vm` (pvcnoded): the updated node context,
the coordination-store writes in order, how the loop exited, and the final
value of `tick` (the seconds slept inside the loop, since every iteration
does `tick += 2; time.sleep(2)`). -/
structure ShutdownResult where
  ctx : NodeCtx
  writes : List ZkWrite
  outcome : ShutdownOutcome
  tick : ℕ
  deriving DecidableEq, Repr

/-- The `while True` loop of `VMInstance.shutdown_vm` (pvcnoded).  Each
iteration: `tick += 2; sleep(2)`; abort (breaking with no write) if the stored
state left `{shutdown, restart}`; otherwise if the domain is no longer
running, `removeDomainFromList()` and write `state := 'stop'`; otherwise if
`tick >= 90`, write `state := 'stop'` (timeout).  `fuel` only bounds the
recursion; `shutdown_vm` passes enough for the 90-second tick bound, and
`shutdownLoop_no_fuelOut` shows the `fuelOut` sentinel is unreachable then. -/
def shutdownLoop (u : String) (obs : ℕ → ShutObs) (ctx : NodeCtx) :
    ℕ → ℕ → ShutdownResult
  | 0, tick => ShutdownResult.mk ctx [] ShutdownOutcome.fuelOut tick
  | fuel + 1, tick =>
    let t := tick + 2
    let o := obs t
    if o.state ≠ "shutdown" ∧ o.state ≠ "restart" then
      ShutdownResult.mk ctx [] ShutdownOutcome.aborted t
    else if o.running = false then
      let (ctx', w) := removeDomainFromList ctx u
      ShutdownResult.mk ctx' (w ++ [ZkWrite.mk (ZkKey.domState u) "stop"])
        ShutdownOutcome.stopped t
    else if 90 ≤ t then
      ShutdownResult.mk ctx [ZkWrite.mk (ZkKey.domState u) "stop"]
        ShutdownOutcome.timedOut t
    else
      shutdownLoop u obs ctx fuel t

/-- `VMInstance.shutdown_vm` (pvcnoded): run the wait loop (tick starts at 0),
then — if `self.inrestart` — write `state := 'start'` after a settling sleep.
On the aborted path the source re-enters `manage_vm_state`; the model returns
the `aborted` outcome instead of re-dispatching. -/
def shutdown_vm (u : String) (inrestart : Bool) (ctx : NodeCtx)
    (obs : ℕ → ShutObs) : ShutdownResult :=
  let r := shutdownLoop u obs ctx 45 0
  if inrestart then
    { r with writes := r.writes ++ [ZkWrite.mk (ZkKey.domState u) "start"] }
  else
    r

/-- `VMInstance.migrate_vm` (pvcnoded): run `live_migrate_vm` (its success is
the `liveMigrateOk` input; the helper touches only libvirt handles).  On
failure write `/domains/<u>/state := 'shutdown'`; on success
`removeDomainFromList()` and stop the log watcher.  Neither branch writes
`state := 'start'`. -/
def migrate_vm (u : String) (ctx : NodeCtx) (liveMigrateOk : Bool) :
    NodeCtx × List ZkWrite :=
  if liveMigrateOk = false then
    (ctx, [ZkWrite.mk (ZkKey.domState u) "shutdown"])
  else
    removeDomainFromList ctx u

/-- What one iteration of the receive loop of `VMInstance.receive_migrate`
(pvcnoded) observes: the stored `/domains/<u>/state`, and the local libvirt
lookup — `none` when `lookupByUUID` finds nothing, `some running` when the
domain exists with `running = (state == VIR_DOMAIN_RUNNING)`. -/
structure RecvObs where
  state : String
  dom : Option Bool
  deriving DecidableEq, Repr

/-- How `VMInstance.receive_migrate` (pvcnoded) finished. -/
inductive RecvOutcome where
  | received
  | aborted
  | sendFailed
  | arrivalTimedOut
  | coldStarted
  | coldTimedOut
  | fuelOut
  deriving DecidableEq, Repr

/-- Result of `VMInstance.receive_migrate` (pvcnoded): updated context,
store writes in order, outcome, and the final `tick` of the last loop run
(each iteration sleeps 1 s then increments `tick`). -/
structure RecvResult where
  ctx : NodeCtx
  writes : List ZkWrite
  outcome : RecvOutcome
  tick : ℕ
  deriving DecidableEq, Repr

/-- The arrival loop of `receive_migrate` (pvcnoded).  Each iteration:
sleep 1 s, `tick += 1`, read the stored state and look the domain up locally.
If the domain is found and running: `addDomainToList()` and write
`state := 'start'`.  If found but not running and the state left `migrate`:
abort.  If not found and the state is `shutdown` or `stop`: the send failed
remotely (`live_receive = False`).  Then, if `tick > 90`, write
`state := 'fail'` — and nothing else — and break. -/
def receiveLoop (u : String) (obs : ℕ → RecvObs) (ctx : NodeCtx) :
    ℕ → ℕ → RecvResult × Bool
  | 0, tick => (RecvResult.mk ctx [] RecvOutcome.fuelOut tick, true)
  | fuel + 1, tick =>
    let t := tick + 1
    let o := obs t
    match o.dom with
    | some running =>
      if running then
        let (ctx', w) := addDomainToList ctx u
        (RecvResult.mk ctx' (w ++ [ZkWrite.mk (ZkKey.domState u) "start"])
           RecvOutcome.received t, true)
      else if o.state ≠ "migrate" then
        (RecvResult.mk ctx [] RecvOutcome.aborted t, true)
      else if 90 < t then
        (RecvResult.mk ctx [ZkWrite.mk (ZkKey.domState u) "fail"]
           RecvOutcome.arrivalTimedOut t, true)
      else
        receiveLoop u obs ctx fuel t
    | none =>
      if o.state = "shutdown" ∨ o.state = "stop" then
        (RecvResult.mk ctx [] RecvOutcome.sendFailed t, false)
      else if 90 < t then
        (RecvResult.mk ctx [ZkWrite.mk (ZkKey.domState u) "fail"]
           RecvOutcome.arrivalTimedOut t, true)
      else
        receiveLoop u obs ctx fuel t

/-- The fallback loop of `receive_migrate` (pvcnoded), entered when
`live_receive` turned false.  Each iteration: sleep 1 s, `tick += 1`, read the
stored state.  On `state == 'stop'`: settle 1 s more and write
`state := 'start'` (cold start).  If `tick > 120`: one multi-key write setting
`state := 'fail'` and `failedreason := 'Timeout waiting for migrate or
shutdown'`. -/
def receiveWaitStopLoop (u : String) (obs2 : ℕ → String) :
    ℕ → ℕ → List ZkWrite × RecvOutcome × ℕ
  | 0, tick => ([], RecvOutcome.fuelOut, tick)
  | fuel + 1, tick =>
    let t := tick + 1
    let s := obs2 t
    if s = "stop" then
      ([ZkWrite.mk (ZkKey.domState u) "start"], RecvOutcome.coldStarted, t)
    else if 120 < t then
      ([ZkWrite.mk (ZkKey.domState u) "fail",
        ZkWrite.mk (ZkKey.domFailedReason u) "Timeout waiting for migrate or shutdown"],
       RecvOutcome.coldTimedOut, t)
    else
      receiveWaitStopLoop u obs2 fuel t

/-- `VMInstance.receive_migrate` (pvcnoded): run the arrival loop; when it set
`live_receive = False`, run the fallback loop with its own tick counter.
`obs` feeds the arrival loop, `obs2` the fallback loop. -/
def receive_migrate (u : String) (ctx : NodeCtx) (obs : ℕ → RecvObs)
    (obs2 : ℕ → String) : RecvResult :=
  let (r, live_receive) := receiveLoop u obs ctx 100 0
  if live_receive = false then
    let (w, outcome, t) := receiveWaitStopLoop u obs2 130 0
    RecvResult.mk r.ctx (r.writes ++ w) outcome t
  else
    r

/-!
## virtualization-daemon/pvcvd/VMInstance.py — the older VM controller
-/

namespace VMInstanceVd

/-- `VMInstance.terminate_vm` (pvcvd): destroy the local domain if the handle
exists, remove it from the running list; no state write. -/
def terminate_vm (u : String) (dom_present : Bool) (ctx : NodeCtx) :
    NodeCtx × List ZkWrite × List LibvirtOp :=
  let ops := if dom_present then [LibvirtOp.destroy] else []
  let (ctx', w) := removeDomainFromList ctx u
  (ctx', w, ops)

/-- `VMInstance.stop_vm` (pvcvd): destroy if the handle exists, remove from
the running list, and write `state := 'stop'` unless inside a restart. -/
def stop_vm (u : String) (dom_present inrestart : Bool) (ctx : NodeCtx) :
    NodeCtx × List ZkWrite × List LibvirtOp :=
  let ops := if dom_present then [LibvirtOp.destroy] else []
  let (ctx', w) := removeDomainFromList ctx u
  let w' := if inrestart = false then w ++ [ZkWrite.mk (ZkKey.domState u) "stop"] else w
  (ctx', w', ops)

/-- The wait loop of `VMInstance.shutdown_vm` (pvcvd):
`while self.dom.state()[0] == VIR_DOMAIN_RUNNING and tick < 60: tick += 1;
sleep(0.5)`.  `obsVd i` tells whether the domain still reports running at the
check performed with `tick = i` (a lookup exception is modelled as not
running).  Returns the final `tick` (each tick is half a second). -/
def shutdownWait (obsVd : ℕ → Bool) : ℕ → ℕ → ℕ
  | 0, tick => tick
  | fuel + 1, tick =>
    if obsVd tick = true ∧ tick < 60 then shutdownWait obsVd fuel (tick + 1)
    else tick

/-- `VMInstance.shutdown_vm` (pvcvd): `dom.shutdown()`, then the wait loop; if
`tick >= 60` fall back to `stop_vm()` and return, else
`removeDomainFromList()` and write `state := 'stop'` unless inside a restart.
Returns the context, the writes, and the final half-second tick count. -/
def shutdown_vm (u : String) (inrestart : Bool) (ctx : NodeCtx)
    (obsVd : ℕ → Bool) : NodeCtx × List ZkWrite × ℕ :=
  let tick := shutdownWait obsVd 61 0
  if 60 ≤ tick then
    let (ctx', w, _ops) := stop_vm u true inrestart ctx
    (ctx', w, tick)
  else
    let (ctx', w) := removeDomainFromList ctx u
    let w' := if inrestart = false then w ++ [ZkWrite.mk (ZkKey.domState u) "stop"] else w
    (ctx', w', tick)

/-- `VMInstance.migrate_vm` (pvcvd): run `live_migrate_vm` (returns 0 on
success, 1 on failure; an exception around the call is treated as 0).  On
failure fall back to `shutdown_vm()`; on success `removeDomainFromList()`.
In BOTH branches the function then writes `/domains/<u>/state := 'start'`. -/
def migrate_vm (u : String) (ctx : NodeCtx) (liveMigrateRet : ℕ)
    (obsVd : ℕ → Bool) : NodeCtx × List ZkWrite :=
  if liveMigrateRet ≠ 0 then
    let (ctx', w, _tick) := shutdown_vm u false ctx obsVd
    (ctx', w ++ [ZkWrite.mk (ZkKey.domState u) "start"])
  else
    let (ctx', w) := removeDomainFromList ctx u
    (ctx', w ++ [ZkWrite.mk (ZkKey.domState u) "start"])

end VMInstanceVd

/-!
## manage_vm_state — the reconciliation dispatcher of both VM controllers
-/

/-- The six per-domain re-entrancy flags checked by `manage_vm_state`. -/
structure VMFlags where
  instart : Bool
  inrestart : Bool
  inmigrate : Bool
  inreceive : Bool
  inshutdown : Bool
  instop : Bool
  deriving DecidableEq, Repr

/-- The sub-operations `manage_vm_state` can hand off to.  The lifecycle
functions they stand for are modelled separately above; the dispatcher emits
these markers so its own effects (store writes, running-list updates) stay
distinguishable from the delegated work. -/
inductive VMAction where
  | logWatcherStart
  | logWatcherStop
  | callStartVm
  | callRestartVm
  | callShutdownVm
  | callStopVm
  | callMigrateVm
  | callReceiveMigrate
  | callTerminateVm
  deriving DecidableEq, Repr

/-- `VMInstance.manage_vm_state` (pvcnoded).  Inputs are the values the
function reads at entry: the six flags, the stored `state` and `node` of the
domain, this node's context, and whether libvirt reports the domain
`VIR_DOMAIN_RUNNING` (a lookup failure is `VIR_DOMAIN_NOSTATE`, i.e. not
running).  Output: updated context, the dispatcher's own store writes in
order, and the delegated operations.  Pass one returns immediately when any
re-entrancy flag is set; pass two splits on `node == this_node.name`; pass
three on the libvirt liveness.  In the local-and-not-running case the source
has two successive `if` chains (`start`/`migrate`, then
`restart`/`shutdown`/`stop`). -/
def manage_vm_state (flags : VMFlags) (u : String) (state node : String)
    (this_node : NodeCtx) (running : Bool) :
    NodeCtx × List ZkWrite × List VMAction :=
  if flags.instart = false ∧ flags.inrestart = false ∧ flags.inmigrate = false ∧
      flags.inreceive = false ∧ flags.inshutdown = false ∧ flags.instop = false then
    if node = this_node.name then
      if running = true then
        if state = "start" then
          let (ctx', w) := addDomainToList this_node u
          (ctx', w, [VMAction.logWatcherStart])
        else if state = "migrate" then
          let (ctx', w) := addDomainToList this_node u
          (ctx', ZkWrite.mk (ZkKey.domState u) "start" :: w,
           [VMAction.logWatcherStart])
        else if state = "restart" then (this_node, [], [VMAction.callRestartVm])
        else if state = "shutdown" then (this_node, [], [VMAction.callShutdownVm])
        else if state = "stop" then (this_node, [], [VMAction.callStopVm])
        else (this_node, [], [])
      else
        let first : List VMAction :=
          if state = "start" then [VMAction.callStartVm]
          else if state = "migrate" then [VMAction.callReceiveMigrate]
          else []
        if state = "restart" then
          (this_node, [ZkWrite.mk (ZkKey.domState u) "start"], first)
        else if state = "shutdown" then
          let (ctx', w) := removeDomainFromList this_node u
          (ctx', w, first ++ [VMAction.logWatcherStop])
        else if state = "stop" then
          let (ctx', w) := removeDomainFromList this_node u
          (ctx', w, first ++ [VMAction.logWatcherStop])
        else (this_node, [], first)
    else
      if running = true then
        if state = "migrate" then (this_node, [], [VMAction.callMigrateVm])
        else if state = "shutdown" then (this_node, [], [VMAction.callShutdownVm])
        else (this_node, [], [VMAction.callTerminateVm])
      else (this_node, [], [])
  else (this_node, [], [])

/-- `VMInstance.manage_vm_state` (pvcvd) — the older controller.  Same pass
structure; the placement key is `/domains/<u>/hypervisor`, there is no
console-log watcher, and the remote-and-running branch distinguishes only
`migrate` from everything-else (force terminate). -/
def VMInstanceVd.manage_vm_state (flags : VMFlags) (u : String)
    (state hypervisor : String) (thishypervisor : NodeCtx) (running : Bool) :
    NodeCtx × List ZkWrite × List VMAction :=
  if flags.instart = false ∧ flags.inrestart = false ∧ flags.inmigrate = false ∧
      flags.inreceive = false ∧ flags.inshutdown = false ∧ flags.instop = false then
    if hypervisor = thishypervisor.name then
      if running = true then
        if state = "start" then
          let (ctx', w) := addDomainToList thishypervisor u
          (ctx', w, [])
        else if state = "migrate" then
          let (ctx', w) := addDomainToList thishypervisor u
          (ctx', ZkWrite.mk (ZkKey.domState u) "start" :: w, [])
        else if state = "restart" then (thishypervisor, [], [VMAction.callRestartVm])
        else if state = "shutdown" then (thishypervisor, [], [VMAction.callShutdownVm])
        else if state = "stop" then (thishypervisor, [], [VMAction.callStopVm])
        else (thishypervisor, [], [])
      else
        let first : List VMAction :=
          if state = "start" then [VMAction.callStartVm]
          else if state = "migrate" then [VMAction.callReceiveMigrate]
          else []
        if state = "restart" then
          (thishypervisor, [ZkWrite.mk (ZkKey.domState u) "start"], first)
        else if state = "shutdown" then
          let (ctx', w) := removeDomainFromList thishypervisor u
          (ctx', w, first)
        else if state = "stop" then
          let (ctx', w) := removeDomainFromList thishypervisor u
          (ctx', w, first)
        else (thishypervisor, [], first)
    else
      if running = true then
        if state = "migrate" then (thishypervisor, [], [VMAction.callMigrateVm])
        else (thishypervisor, [], [VMAction.callTerminateVm])
      else (thishypervisor, [], [])
  else (thishypervisor, [], [])

/-!
## flush_locks and the /cmd/domains handler (pvcnoded)
-/

/-- One RBD lock as listed by `rbd lock list --format json`: the lock id and
the `locker` field of its detail object. -/
structure RbdLock where
  lockId : String
  locker : String
  deriving DecidableEq, Repr

/-- What probing one volume observes: the exit code of
`rbd lock list --format json <rbd>`, and the parsed lock list — `none` when
`json.loads` raises, `some locks` otherwise. -/
structure LockProbe where
  retcode : Int
  locks : Option (List RbdLock)
  deriving Repr

/-- The external world `flush_locks` runs against: the probe result per
volume, and the exit code of `rbd lock remove` per volume and lock. -/
structure RbdEnv where
  probe : String → LockProbe
  removeRet : String → RbdLock → Int

/-- The per-volume body of the `flush_locks` loop: skip the volume when the
lock-list command fails or its JSON does not parse; when there is at least one
lock, remove each one (recording the removal's exit code; a failed removal is
only logged).  Returns the removals performed on this volume. -/
def flushVolumeLocks (env : RbdEnv) (rbd : String) : List (String × RbdLock × Int) :=
  let p := env.probe rbd
  if p.retcode ≠ 0 then []
  else
    match p.locks with
    | none => []
    | some lock_list =>
      if lock_list.isEmpty then []
      else lock_list.map (fun l => (rbd, l, env.removeRet rbd l))

/-- `flush_locks(zk_conn, logger, dom_uuid)` (pvcnoded VMInstance.py):
`rbd_list` is the comma-split of `/domains/<u>/rbdlist`; loop the volumes,
removing any locks found; the function returns `True` unconditionally (errors
only `continue` to the next volume).  The model also returns the removals
performed so the loop body stays observable. -/
def flush_locks (env : RbdEnv) (rbd_list : List String) :
    Bool × List (String × RbdLock × Int) :=
  (true, rbd_list.foldr (fun rbd acc => flushVolumeLocks env rbd ++ acc) [])

/-- `run_command(zk_conn, logger, this_node, data)` (pvcnoded VMInstance.py).
The request `data` arrives as `'<command> <args>'` and the source unpacks it
with `data.split()`; the model takes the two fields, with
`data = command ++ ' ' ++ args`.  Only `command == 'flush_locks'` is handled,
and only when this node's `router_state` is `'primary'`: under the advisory
lock on `/cmd/domains` it runs `flush_locks` and writes
`'success-' ++ data` (or `'failure-' ++ data`) back to `/cmd/domains`. -/
def run_command (env : RbdEnv) (router_state : String) (command args : String)
    (rbd_list : List String) : List ZkWrite :=
  if command = "flush_locks" then
    if router_state = "primary" then
      let result := (flush_locks env rbd_list).1
      if result = true then
        [ZkWrite.mk ZkKey.cmdDomains ("success-" ++ command ++ " " ++ args)]
      else
        [ZkWrite.mk ZkKey.cmdDomains ("failure-" ++ command ++ " " ++ args)]
    else []
  else []

/-!
## router-daemon/pvcrd/VXNetworkInstance.py
-/

/-- Effects on the host operating system issued through the process runner:
a captured foreground command, a detached background command, or a
long-running daemon spawn (`run_os_daemon`). -/
inductive SysAction where
  | cmd (command : String)
  | backgroundCmd (command : String)
  | daemon (command : String)
  deriving DecidableEq, Repr

/-- The per-network configuration fields `startDHCPServer` and
`createGatewayAddress` read from the instance (populated from
`/networks/<vni>/*`). -/
structure VXNetConfig where
  bridge_nic : String
  ip_gateway : String
  ip_cidrnetmask : String
  domain : String
  dhcp_start : String
  dhcp_end : String
  dnsmasq_hostsdir : String
  deriving DecidableEq, Repr

/-- `VXNetworkInstance.createGatewayAddress`: only when
`this_router.getnetworkstate() == 'primary'`, run
`ip address add <gw>/<cidr> dev <bridge>` and a backgrounded
`arping -A -c2 -I <bridge> <gw>`. -/
def createGatewayAddress (network_state : String) (cfg : VXNetConfig) :
    List SysAction :=
  if network_state = "primary" then
    [SysAction.cmd ("ip address add " ++ cfg.ip_gateway ++ "/" ++
       cfg.ip_cidrnetmask ++ " dev " ++ cfg.bridge_nic),
     SysAction.backgroundCmd ("arping -A -c2 -I " ++ cfg.bridge_nic ++ " " ++
       cfg.ip_gateway)]
  else []

/-- The `dhcp_configuration` argument list assembled by `startDHCPServer`. -/
def dhcpConfiguration (cfg : VXNetConfig) : List String :=
  ["--domain-needed",
   "--bogus-priv",
   "--no-resolv",
   "--filterwin2k",
   "--expand-hosts",
   "--domain=" ++ cfg.domain,
   "--local=/" ++ cfg.domain ++ "/",
   "--listen-address=" ++ cfg.ip_gateway,
   "--bind-interfaces",
   "--leasefile-ro",
   "--dhcp-script=/usr/share/pvc/pvcrd/dnsmasq-zookeeper-leases.py",
   "--dhcp-range=" ++ cfg.dhcp_start ++ "," ++ cfg.dhcp_end ++ ",4h",
   "--dhcp-lease-max=99",
   "--dhcp-hostsdir=" ++ cfg.dnsmasq_hostsdir,
   "--log-facility=DAEMON",
   "--keep-in-foreground"]

/-- `VXNetworkInstance.startDHCPServer`: only when the router's network state
is `'primary'`, create the hosts directory and spawn dnsmasq through
`run_os_daemon` with the assembled configuration. -/
def startDHCPServer (network_state : String) (cfg : VXNetConfig) :
    List SysAction :=
  if network_state = "primary" then
    [SysAction.cmd ("/bin/mkdir --parents " ++ cfg.dnsmasq_hostsdir),
     SysAction.daemon ("/usr/sbin/dnsmasq " ++
       String.intercalate " " (dhcpConfiguration cfg))]
  else []

/-!
## Claims C1, C8, C9
-/

/-- C1: the flush target selector does not pick the candidate with maximal
free memory.  Counter-evaluation: with candidates `hv2` (100 free) and `hv3`
(200 free) the claim demands target `hv3`, but the code's selection loop —
whose initial bound is `(2 xor 64)/8 = 8.25` because Python `^` is XOR —
rejects every realistic candidate and leaves `least_host = ""`, then writes
`state = 'flush'` (not `migrate`) and `/domains/<u>/hypervisor = ""`. -/
theorem C1_flush_selects_no_node :
    flushSelectTarget [PeerNode.mk "hv2" 100, PeerNode.mk "hv3" 200] =
      ("", ((Nat.xor 2 64 : ℕ) : ℚ) / 8) ∧
    NodeInstance.flush ["u1"] [PeerNode.mk "hv2" 100, PeerNode.mk "hv3" 200] =
      [ZkWrite.mk (ZkKey.domState "u1") "flush",
       ZkWrite.mk (ZkKey.domHypervisor "u1") ""] := by
  have hxor : (Nat.xor 2 64 : ℕ) = 66 := by decide
  constructor
  · norm_num [flushSelectTarget, hxor, List.foldl]
  · norm_num [NodeInstance.flush, flushSelectTarget, hxor, List.foldl, List.foldr]

/-- C8: the foreground branch of `run_os_command` does not wait for the child
and returns `Popen.returncode` immediately after the spawn, which is `None`
regardless of the program's exit status — a caller cannot distinguish a zero
from a non-zero exit. -/
theorem C8_run_os_command_foreground_returns_none :
    run_os_command false 0 = none ∧ run_os_command false 1 = none ∧
    run_os_command false 0 = run_os_command false 1 := by
  decide

/-- C9: `addDomainToList` is idempotent — a uuid already present in the local
`domain_list` causes neither a list change nor a `runningdomains` write — and
it preserves no-duplication of the list, so `runningdomains` never lists the
same uuid twice. -/
theorem C9_addDomainToList_idempotent (ctx : NodeCtx) (u : String)
    (hnd : ctx.domain_list.Nodup) :
    (u ∈ ctx.domain_list → addDomainToList ctx u = (ctx, [])) ∧
    (addDomainToList ctx u).1.domain_list.Nodup := by
  constructor
  · intro hmem
    simp [addDomainToList, hmem]
  · by_cases hmem : u ∈ ctx.domain_list
    · simp [addDomainToList, hmem, hnd]
    · simp [addDomainToList, hmem]
      exact List.Nodup.append hnd (List.nodup_singleton u)
        (by simpa [List.disjoint_singleton] using hmem)

/-- Witness for C9 at a concrete context: node `hv1` with running list
`["u1", "u2"]` and uuid `u1` already present. -/
theorem C9_addDomainToList_idempotent_witness :
    addDomainToList (NodeCtx.mk "hv1" ["u1", "u2"]) "u1" =
      (NodeCtx.mk "hv1" ["u1", "u2"], []) ∧
    (addDomainToList (NodeCtx.mk "hv1" ["u1", "u2"]) "u1").1.domain_list.Nodup :=
  And.intro
    ((C9_addDomainToList_idempotent (NodeCtx.mk "hv1" ["u1", "u2"]) "u1"
        (by decide)).1 (by decide))
    ((C9_addDomainToList_idempotent (NodeCtx.mk "hv1" ["u1", "u2"]) "u1"
        (by decide)).2)

/-!
## Claims C5, C7, C10
-/

/-- C5: when any of the six re-entrancy flags is set, `manage_vm_state` (in
both the pvcnoded and the pvcvd controller) performs no action at all: no
store write, no delegated libvirt operation, and the node's local domain list
is unchanged. -/
theorem C5_reentrancy_flags_block_all_actions (flags : VMFlags)
    (u s n sv hv : String) (tn tnv : NodeCtx) (r rv : Bool)
    (h : flags.instart = true ∨ flags.inrestart = true ∨ flags.inmigrate = true ∨
         flags.inreceive = true ∨ flags.inshutdown = true ∨ flags.instop = true) :
    manage_vm_state flags u s n tn r = (tn, [], []) ∧
    VMInstanceVd.manage_vm_state flags u sv hv tnv rv = (tnv, [], []) := by
  have hc : ¬ (flags.instart = false ∧ flags.inrestart = false ∧
      flags.inmigrate = false ∧ flags.inreceive = false ∧
      flags.inshutdown = false ∧ flags.instop = false) := by
    rcases h with h | h | h | h | h | h <;> simp [h]
  constructor
  · simp [manage_vm_state, hc]
  · simp [VMInstanceVd.manage_vm_state, hc]

/-- Witness for C5: a controller mid-migration (`inmigrate = true`) seeing a
`stop` request for a locally running domain does nothing. -/
theorem C5_reentrancy_flags_block_all_actions_witness :
    manage_vm_state (VMFlags.mk false false true false false false) "u1" "stop"
        "hv1" (NodeCtx.mk "hv1" ["u1"]) true = (NodeCtx.mk "hv1" ["u1"], [], []) ∧
    VMInstanceVd.manage_vm_state (VMFlags.mk false false true false false false)
        "u1" "stop" "hv1" (NodeCtx.mk "hv1" ["u1"]) true =
      (NodeCtx.mk "hv1" ["u1"], [], []) :=
  C5_reentrancy_flags_block_all_actions
    (VMFlags.mk false false true false false false) "u1" "stop" "hv1" "stop" "hv1"
    (NodeCtx.mk "hv1" ["u1"]) (NodeCtx.mk "hv1" ["u1"]) true true
    (Or.inr (Or.inr (Or.inl rfl)))

/-- C7: on a router whose network state is not `primary`, neither
`createGatewayAddress` nor `startDHCPServer` issues any system action — no
`ip address add`, no gratuitous ARP, no dnsmasq spawn. -/
theorem C7_gateway_and_dhcp_primary_only (network_state : String)
    (cfg cfg' : VXNetConfig) (h : network_state ≠ "primary") :
    createGatewayAddress network_state cfg = [] ∧
    startDHCPServer network_state cfg' = [] := by
  constructor
  · simp [createGatewayAddress, h]
  · simp [startDHCPServer, h]

/-- Witness for C7 on a secondary router with a fully populated network
configuration. -/
theorem C7_gateway_and_dhcp_primary_only_witness :
    createGatewayAddress "secondary"
      (VXNetConfig.mk "br1001" "10.1.0.1" "24" "net.local" "10.1.0.100"
        "10.1.0.199" "/var/lib/dnsmasq/1001") = [] ∧
    startDHCPServer "secondary"
      (VXNetConfig.mk "br1001" "10.1.0.1" "24" "net.local" "10.1.0.100"
        "10.1.0.199" "/var/lib/dnsmasq/1001") = [] :=
  C7_gateway_and_dhcp_primary_only "secondary"
    (VXNetConfig.mk "br1001" "10.1.0.1" "24" "net.local" "10.1.0.100"
      "10.1.0.199" "/var/lib/dnsmasq/1001")
    (VXNetConfig.mk "br1001" "10.1.0.1" "24" "net.local" "10.1.0.100"
      "10.1.0.199" "/var/lib/dnsmasq/1001")
    (by decide)

/-- C10: `terminate_vm` (in both controllers) destroys the domain and removes
it from the running list, but its only store writes are to this node's
`runningdomains` key — `/domains/<u>/state` is never written — whereas
`stop_vm` outside a restart does write `state := 'stop'`. -/
theorem C10_terminate_vm_preserves_state_key (u : String) (dp : Bool)
    (ctx : NodeCtx) :
    (∀ w ∈ (terminate_vm u dp ctx).2.1, w.key ≠ ZkKey.domState u) ∧
    (terminate_vm u dp ctx).1.domain_list = ctx.domain_list.erase u ∧
    (terminate_vm u true ctx).2.2 = [LibvirtOp.destroy] ∧
    (∀ w ∈ (VMInstanceVd.terminate_vm u dp ctx).2.1, w.key ≠ ZkKey.domState u) ∧
    ZkWrite.mk (ZkKey.domState u) "stop" ∈ (stop_vm u dp false ctx).2.1 := by
  refine ⟨?_, ?_, ?_, ?_, ?_⟩
  · intro w hw
    by_cases hm : u ∈ ctx.domain_list <;>
      simp_all [terminate_vm, removeDomainFromList, hm]
  · by_cases hm : u ∈ ctx.domain_list
    · simp [terminate_vm, removeDomainFromList, hm]
    · simp [terminate_vm, removeDomainFromList, hm,
        List.erase_of_not_mem hm]
  · simp [terminate_vm, removeDomainFromList]
  · intro w hw
    by_cases hm : u ∈ ctx.domain_list <;>
      simp_all [VMInstanceVd.terminate_vm, removeDomainFromList, hm]
  · by_cases hm : u ∈ ctx.domain_list <;>
      simp [stop_vm, removeDomainFromList, hm]

/-- Witness for C10: terminating `u1` on a node running it writes only the
`runningdomains` key, while `stop_vm` writes `state = 'stop'`. -/
theorem C10_terminate_vm_preserves_state_key_witness :
    (¬ ZkWrite.mk (ZkKey.domState "u1") "stop" ∈
        (terminate_vm "u1" true (NodeCtx.mk "hv1" ["u1"])).2.1) ∧
    (terminate_vm "u1" true (NodeCtx.mk "hv1" ["u1"])).1.domain_list = [] ∧
    ZkWrite.mk (ZkKey.domState "u1") "stop" ∈
      (stop_vm "u1" true false (NodeCtx.mk "hv1" ["u1"])).2.1 := by
  refine ⟨?_, ?_, ?_⟩
  · intro hmem
    exact (C10_terminate_vm_preserves_state_key "u1" true
      (NodeCtx.mk "hv1" ["u1"])).1 _ hmem rfl
  · exact ((C10_terminate_vm_preserves_state_key "u1" true
      (NodeCtx.mk "hv1" ["u1"])).2.1).trans (by decide)
  · exact (C10_terminate_vm_preserves_state_key "u1" true
      (NodeCtx.mk "hv1" ["u1"])).2.2.2.2

/-!
## Claim C3 — send-migrate behaviour of the two controllers
-/

/-- C3 counterexample: in the pvcvd controller a successful live-migration
send (`live_migrate_vm` returned 0) still ends with the sending node writing
`/domains/u1/state := 'start'` — the claim's "in neither case does the
sending node ever write state = 'start'" fails on this implementation. -/
theorem C3_counterexample_vd_send_writes_start :
    ZkWrite.mk (ZkKey.domState "u1") "start" ∈
      (VMInstanceVd.migrate_vm "u1" (NodeCtx.mk "hv1" ["u1"]) 0
        (fun _ => false)).2 := by
  decide

/-- C3 (amended): in the pvcnoded controller, a failed live-migration send
writes exactly `state := 'shutdown'`, a successful one only removes the domain
from the local running list (its sole write being this node's
`runningdomains` key), and no branch ever writes `state := 'start'`. -/
theorem C3_send_migrate_pvcnoded (u : String) (ctx : NodeCtx) (ok : Bool) :
    migrate_vm u ctx false = (ctx, [ZkWrite.mk (ZkKey.domState u) "shutdown"]) ∧
    (migrate_vm u ctx true).1.domain_list = ctx.domain_list.erase u ∧
    (∀ w ∈ (migrate_vm u ctx true).2, w.key = ZkKey.nodeRunningDomains ctx.name) ∧
    (∀ w ∈ (migrate_vm u ctx ok).2,
      ¬(w.key = ZkKey.domState u ∧ w.value = "start")) := by
  refine ⟨?_, ?_, ?_, ?_⟩
  · simp [migrate_vm]
  · by_cases hm : u ∈ ctx.domain_list
    · simp [migrate_vm, removeDomainFromList, hm]
    · simp [migrate_vm, removeDomainFromList, hm, List.erase_of_not_mem hm]
  · intro w hw
    by_cases hm : u ∈ ctx.domain_list <;>
      simp_all [migrate_vm, removeDomainFromList, hm]
  · intro w hw
    cases ok
    · simp_all [migrate_vm]
    · by_cases hm : u ∈ ctx.domain_list <;>
        simp_all [migrate_vm, removeDomainFromList, hm]

/-- Witness for C3 at node `hv1` running `u1`: the failed send writes
`shutdown`; the successful send never writes `start`. -/
theorem C3_send_migrate_pvcnoded_witness :
    migrate_vm "u1" (NodeCtx.mk "hv1" ["u1"]) false =
      (NodeCtx.mk "hv1" ["u1"], [ZkWrite.mk (ZkKey.domState "u1") "shutdown"]) ∧
    ¬ ZkWrite.mk (ZkKey.domState "u1") "start" ∈
        (migrate_vm "u1" (NodeCtx.mk "hv1" ["u1"]) true).2 := by
  constructor
  · exact (C3_send_migrate_pvcnoded "u1" (NodeCtx.mk "hv1" ["u1"]) true).1
  · intro hmem
    exact (C3_send_migrate_pvcnoded "u1" (NodeCtx.mk "hv1" ["u1"]) true).2.2.2 _
      hmem ⟨rfl, rfl⟩

/-!
## Claim C6 — flush_locks idempotence and the command-queue handler
-/

/-- A volume whose probe parses to an empty lock list contributes no removal
commands. -/
theorem flushVolumeLocks_of_no_locks (env : RbdEnv) (rbd : String)
    (h : (env.probe rbd).locks = some []) : flushVolumeLocks env rbd = [] := by
  by_cases hr : (env.probe rbd).retcode ≠ 0 <;> simp [flushVolumeLocks, hr, h]

/-- C6: on a domain whose listed RBD volumes carry no locks, `flush_locks`
performs no lock removal and returns `True`, and the `/cmd/domains` handler on
the primary consequently writes `success-<request>` back to the command
queue. -/
theorem C6_flush_locks_idempotent (env : RbdEnv) (rbd_list : List String)
    (args : String)
    (hempty : ∀ rbd ∈ rbd_list, (env.probe rbd).locks = some []) :
    (flush_locks env rbd_list).1 = true ∧
    (flush_locks env rbd_list).2 = [] ∧
    run_command env "primary" "flush_locks" args rbd_list =
      [ZkWrite.mk ZkKey.cmdDomains ("success-flush_locks " ++ args)] := by
  have hrem : (flush_locks env rbd_list).2 = [] := by
    simp only [flush_locks]
    induction rbd_list with
    | nil => rfl
    | cons rbd rest ih =>
      rw [List.foldr_cons, flushVolumeLocks_of_no_locks env rbd
        (hempty rbd (List.mem_cons_self rbd rest)), List.nil_append]
      exact ih (fun r hr => hempty r (List.mem_cons_of_mem rbd hr))
  refine ⟨rfl, hrem, ?_⟩
  simp [run_command, flush_locks]

/-- Witness for C6: a request `flush_locks u1` for a domain with two
lock-free volumes succeeds and acknowledges on `/cmd/domains`. -/
theorem C6_flush_locks_idempotent_witness :
    (flush_locks (RbdEnv.mk (fun _ => LockProbe.mk 0 (some [])) (fun _ _ => 0))
        ["vms/u1_disk0", "vms/u1_disk1"]).1 = true ∧
    (flush_locks (RbdEnv.mk (fun _ => LockProbe.mk 0 (some [])) (fun _ _ => 0))
        ["vms/u1_disk0", "vms/u1_disk1"]).2 = [] ∧
    run_command (RbdEnv.mk (fun _ => LockProbe.mk 0 (some [])) (fun _ _ => 0))
        "primary" "flush_locks" "u1" ["vms/u1_disk0", "vms/u1_disk1"] =
      [ZkWrite.mk ZkKey.cmdDomains "success-flush_locks u1"] :=
  C6_flush_locks_idempotent
    (RbdEnv.mk (fun _ => LockProbe.mk 0 (some [])) (fun _ _ => 0))
    ["vms/u1_disk0", "vms/u1_disk1"] "u1" (fun _ _ => rfl)

/-!
## Claim C4 — graceful shutdown bound
-/

/-- Invariant of the pvcnoded shutdown wait loop: starting from an even tick
at most 88 with enough fuel to reach the 90-second bound, the loop ends with
`tick ≤ 90`, and every exit except the external abort carries the
`state := 'stop'` write. -/
theorem shutdownLoop_bound (u : String) (obs : ℕ → ShutObs) (ctx : NodeCtx) :
    ∀ fuel tick, 2 ∣ tick → tick ≤ 88 → 90 ≤ tick + 2 * fuel →
      (shutdownLoop u obs ctx fuel tick).tick ≤ 90 ∧
      ((shutdownLoop u obs ctx fuel tick).outcome = ShutdownOutcome.aborted ∨
        ZkWrite.mk (ZkKey.domState u) "stop" ∈
          (shutdownLoop u obs ctx fuel tick).writes) := by
  intro fuel
  induction fuel with
  | zero => intro tick _ h88 h90; omega
  | succ f ih =>
    intro tick hdvd h88 h90
    simp only [shutdownLoop]
    by_cases habort : (obs (tick + 2)).state ≠ "shutdown" ∧
        (obs (tick + 2)).state ≠ "restart"
    · simp [habort]
      omega
    · by_cases hrun : (obs (tick + 2)).running = false
      · simp [habort, hrun]
        omega
      · by_cases htime : 90 ≤ tick + 2
        · simp [habort, hrun, htime]
          omega
        · have ht2 : 2 ∣ tick + 2 := by omega
          have ht88 : tick + 2 ≤ 88 := by omega
          have ht90 : 90 ≤ tick + 2 + 2 * f := by omega
          have := ih (tick + 2) ht2 ht88 ht90
          simp only [shutdownLoop] at this ⊢
          simpa [habort, hrun, htime] using this

/-- The pvcvd shutdown wait loop never counts past 60 half-second ticks. -/
theorem shutdownWait_le (obsVd : ℕ → Bool) :
    ∀ fuel tick, tick ≤ 60 → VMInstanceVd.shutdownWait obsVd fuel tick ≤ 60 := by
  intro fuel
  induction fuel with
  | zero => intro tick h; simpa [VMInstanceVd.shutdownWait] using h
  | succ f ih =>
    intro tick h
    simp only [VMInstanceVd.shutdownWait]
    by_cases hc : obsVd tick = true ∧ tick < 60
    · simpa [hc] using ih (tick + 1) (by omega)
    · simpa [hc] using h

/-- C4: graceful shutdown waits at most 90 seconds.  In the pvcnoded
controller the loop's final `tick` (seconds slept) is at most 90 and — unless
the shutdown was externally aborted by a state change away from
`shutdown`/`restart` — `state := 'stop'` is written, whether the guest
stopped in time or the timeout expired.  In the pvcvd controller (outside a
restart) the loop runs at most 60 half-second ticks (30 s ≤ 90 s) and
`state := 'stop'` is written on both the stopped and the timeout path. -/
theorem C4_graceful_shutdown_90s (u : String) (inr : Bool) (ctx : NodeCtx)
    (obs : ℕ → ShutObs) (obsVd : ℕ → Bool) :
    (shutdown_vm u inr ctx obs).tick ≤ 90 ∧
    ((shutdown_vm u inr ctx obs).outcome ≠ ShutdownOutcome.aborted →
      ZkWrite.mk (ZkKey.domState u) "stop" ∈ (shutdown_vm u inr ctx obs).writes) ∧
    (VMInstanceVd.shutdown_vm u false ctx obsVd).2.2 ≤ 60 ∧
    ZkWrite.mk (ZkKey.domState u) "stop" ∈
      (VMInstanceVd.shutdown_vm u false ctx obsVd).2.1 := by
  have hmain := shutdownLoop_bound u obs ctx 45 0 (by omega) (by omega) (by omega)
  refine ⟨?_, ?_, ?_, ?_⟩
  · cases hr : inr <;> simp [shutdown_vm, hr] <;> exact hmain.1
  · intro hout
    rcases hmain.2 with hab | hmem
    · exact absurd (by cases hr : inr <;> simpa [shutdown_vm, hr] using hab) hout
    · cases hr : inr <;> simp [shutdown_vm, hr] <;> simp [hmem]
  · have h := shutdownWait_le obsVd 61 0 (by omega)
    by_cases ht : 60 ≤ VMInstanceVd.shutdownWait obsVd 61 0 <;>
      by_cases hm : u ∈ ctx.domain_list <;>
        simp [VMInstanceVd.shutdown_vm, VMInstanceVd.stop_vm,
          removeDomainFromList, ht, hm] <;> exact h
  · by_cases ht : 60 ≤ VMInstanceVd.shutdownWait obsVd 61 0 <;>
      by_cases hm : u ∈ ctx.domain_list <;>
        simp [VMInstanceVd.shutdown_vm, VMInstanceVd.stop_vm,
          removeDomainFromList, ht, hm]

/-- Witness for C4: a guest that is already down at the first check — the
loop exits at `tick = 2` with the `stop` write; the pvcvd loop exits at
`tick = 0` and also writes `stop`. -/
theorem C4_graceful_shutdown_90s_witness :
    (shutdown_vm "u1" false (NodeCtx.mk "hv1" ["u1"])
        (fun _ => ShutObs.mk "shutdown" false)).tick ≤ 90 ∧
    ZkWrite.mk (ZkKey.domState "u1") "stop" ∈
      (shutdown_vm "u1" false (NodeCtx.mk "hv1" ["u1"])
        (fun _ => ShutObs.mk "shutdown" false)).writes ∧
    ZkWrite.mk (ZkKey.domState "u1") "stop" ∈
      (VMInstanceVd.shutdown_vm "u1" false (NodeCtx.mk "hv1" ["u1"])
        (fun _ => false)).2.1 :=
  And.intro
    (C4_graceful_shutdown_90s "u1" false (NodeCtx.mk "hv1" ["u1"])
      (fun _ => ShutObs.mk "shutdown" false) (fun _ => false)).1
    (And.intro
      ((C4_graceful_shutdown_90s "u1" false (NodeCtx.mk "hv1" ["u1"])
        (fun _ => ShutObs.mk "shutdown" false) (fun _ => false)).2.1
        (by decide))
      (C4_graceful_shutdown_90s "u1" false (NodeCtx.mk "hv1" ["u1"])
        (fun _ => ShutObs.mk "shutdown" false) (fun _ => false)).2.2.2)

/-!
## Claim C2 — receive_migrate arrival timeout
-/

/-- Closed form of the arrival loop on a trace where the domain never appears
locally and the stored state stays `migrate`: with enough fuel the loop runs
until `tick = 91` and ends by writing exactly `state := 'fail'`. -/
theorem receiveLoop_never_arrives (u : String) (obs : ℕ → RecvObs) (ctx : NodeCtx)
    (hobs : ∀ t, obs t = RecvObs.mk "migrate" none) :
    ∀ fuel tick, 91 ≤ fuel + tick → tick ≤ 90 →
      receiveLoop u obs ctx fuel tick =
        (RecvResult.mk ctx [ZkWrite.mk (ZkKey.domState u) "fail"]
          RecvOutcome.arrivalTimedOut 91, true) := by
  intro fuel
  induction fuel with
  | zero => intro tick h91 h90; omega
  | succ f ih =>
    intro tick h91 h90
    simp only [receiveLoop, hobs (tick + 1)]
    by_cases ht : 90 < tick + 1
    · have h90' : tick = 90 := by omega
      subst h90'
      simp
    · simpa [ht] using ih (tick + 1) (by omega) (by omega)

/-- C2 (amended): on every receive in which the domain never appears in the
local virtualization driver and the stored state remains `migrate`, the
controller writes `state := 'fail'` once the arrival window expires (at the
91st one-second tick) — but it does NOT touch `/domains/<u>/failedreason`;
that key is only written on the 120-second fallback-timeout path. -/
theorem C2_receive_timeout_fail_without_failedreason (u : String) (ctx : NodeCtx)
    (obs : ℕ → RecvObs) (obs2 : ℕ → String)
    (hobs : ∀ t, obs t = RecvObs.mk "migrate" none) :
    receive_migrate u ctx obs obs2 =
      RecvResult.mk ctx [ZkWrite.mk (ZkKey.domState u) "fail"]
        RecvOutcome.arrivalTimedOut 91 ∧
    ∀ w ∈ (receive_migrate u ctx obs obs2).writes,
      w.key ≠ ZkKey.domFailedReason u := by
  have h := receiveLoop_never_arrives u obs ctx hobs 100 0 (by omega) (by omega)
  have hr : receive_migrate u ctx obs obs2 =
      RecvResult.mk ctx [ZkWrite.mk (ZkKey.domState u) "fail"]
        RecvOutcome.arrivalTimedOut 91 := by
    simp [receive_migrate, h]
  refine ⟨hr, ?_⟩
  intro w hw
  rw [hr] at hw
  simp only [List.mem_singleton] at hw
  subst hw
  simp

/-- Witness for C2's amended statement on a concrete never-arriving trace. -/
theorem C2_receive_timeout_fail_without_failedreason_witness :
    receive_migrate "u2" (NodeCtx.mk "hv2" []) (fun _ => RecvObs.mk "migrate" none)
        (fun _ => "migrate") =
      RecvResult.mk (NodeCtx.mk "hv2" []) [ZkWrite.mk (ZkKey.domState "u2") "fail"]
        RecvOutcome.arrivalTimedOut 91 :=
  (C2_receive_timeout_fail_without_failedreason "u2" (NodeCtx.mk "hv2" [])
    (fun _ => RecvObs.mk "migrate" none) (fun _ => "migrate")
    (fun _ => rfl)).1

/-- C2 counterexample: on the concrete trace where the domain never appears
and the state stays `migrate`, the writes after the arrival window expires
are exactly `[state := 'fail']`; no write touches the `failedreason` key, so
the claim's "with the failedreason key populated" is false here. -/
theorem C2_counterexample_failedreason_not_written :
    (receive_migrate "u1" (NodeCtx.mk "hv1" []) (fun _ => RecvObs.mk "migrate" none)
        (fun _ => "migrate")).writes =
      [ZkWrite.mk (ZkKey.domState "u1") "fail"] ∧
    ¬ ∃ w ∈ (receive_migrate "u1" (NodeCtx.mk "hv1" [])
        (fun _ => RecvObs.mk "migrate" none) (fun _ => "migrate")).writes,
      w.key = ZkKey.domFailedReason "u1" := by
  have h := receiveLoop_never_arrives "u1" (fun _ => RecvObs.mk "migrate" none)
    (NodeCtx.mk "hv1" []) (fun _ => rfl) 100 0 (by omega) (by omega)
  have hr : receive_migrate "u1" (NodeCtx.mk "hv1" [])
      (fun _ => RecvObs.mk "migrate" none) (fun _ => "migrate") =
      RecvResult.mk (NodeCtx.mk "hv1" []) [ZkWrite.mk (ZkKey.domState "u1") "fail"]
        RecvOutcome.arrivalTimedOut 91 := by
    simp [receive_migrate, h]
  rw [hr]
  constructor
  · rfl
  · rintro ⟨w, hw, hk⟩
    simp only [List.mem_singleton] at hw
    subst hw
    exact absurd hk (by simp)
